import Mathlib

/-!
# Verification of the habit/progression tracker backend

Shallow embedding of `src/backend/main.py` (FastAPI habit tracker).
Python dicts for user records become structures; the JSON user store
becomes an association list keyed by username; endpoint handlers become
pure functions from (request, store) to `Except HTTPException (result, store)`,
where an `error` result models a raised `HTTPException` before `save_db`,
i.e. the persisted store is unchanged.

Dates: Python `datetime.date` is modelled as a (year, month, day) triple
with the proleptic-Gregorian ordinal (`datetime.date.toordinal`) used for
date subtraction, and lexicographic comparison used for `max`, exactly as
in CPython.
-/

namespace HabitTracker

/-! ## Data models (Pydantic classes from main.py) -/

/-- `class LogEntry(BaseModel)`: date, action_type, xp, note. -/
structure LogEntry where
  date : String
  action_type : String
  xp : Int
  note : String
deriving DecidableEq

/-- `class ReflectionEntry(BaseModel)`: date, academic_topic, skill_topic, user_notes. -/
structure ReflectionEntry where
  date : String
  academic_topic : String
  skill_topic : String
  user_notes : String
deriving DecidableEq

/-- `class UserProfile(BaseModel)` with the defaults from main.py. -/
structure UserProfile where
  username : String
  level : Int := 1
  xp : Int := 0
  xp_limit : Int := 100
  logs : List LogEntry := []
  reflections : List ReflectionEntry := []
deriving DecidableEq

/-- `class ActionRequest(BaseModel)`: username, action_type. -/
structure ActionRequest where
  username : String
  action_type : String
deriving DecidableEq

/-- A raised `fastapi.HTTPException`: status code and detail message. -/
structure HTTPException where
  status : Nat
  detail : String
deriving DecidableEq

/-! ## Dates

Python's `datetime.date`: a valid (year, month, day) triple.  Comparison is
lexicographic; `date - date` is the difference of proleptic-Gregorian
ordinals (`toordinal`). -/

/-- A calendar date as in `datetime.date`. -/
structure Date where
  year : Nat
  month : Nat
  day : Nat
deriving DecidableEq

/-- Python's leap-year rule (`calendar.isleap`). -/
def isLeap (y : Nat) : Bool :=
  (y % 4 == 0 && y % 100 != 0) || (y % 400 == 0)

/-- Days in a month of a given year, as in `calendar`/`datetime`. -/
def daysInMonth (y m : Nat) : Nat :=
  if m = 2 then (if isLeap y then 29 else 28)
  else if m = 4 ∨ m = 6 ∨ m = 9 ∨ m = 11 then 30
  else 31

/-- Validity of a `datetime.date` triple. -/
def Date.Valid (d : Date) : Prop :=
  1 ≤ d.year ∧ 1 ≤ d.month ∧ d.month ≤ 12 ∧ 1 ≤ d.day ∧ d.day ≤ daysInMonth d.year d.month

instance (d : Date) : Decidable d.Valid := by
  unfold Date.Valid; infer_instance

/-- Number of leap years among `1..n` (CPython `_days_before_year` helper):
`n//4 - n//100 + n//400`.  In `Nat`, `n/100 ≤ n/4` so the subtraction is exact. -/
def leapsBefore (n : Nat) : Nat :=
  n / 4 - n / 100 + n / 400

/-- Days before January 1 of year `y` (CPython `_days_before_year`). -/
def daysBeforeYear (y : Nat) : Nat :=
  365 * (y - 1) + leapsBefore (y - 1)

/-- Days in year `y` before the first of month `m` (CPython `_days_before_month`). -/
def daysBeforeMonth (y m : Nat) : Nat :=
  match m with
  | 0 => 0
  | 1 => 0
  | k + 1 => daysBeforeMonth y k + daysInMonth y k

/-- Proleptic-Gregorian ordinal of a date (`datetime.date.toordinal`):
day 1 is January 1 of year 1. -/
def Date.toOrdinal (d : Date) : Nat :=
  daysBeforeYear d.year + daysBeforeMonth d.year d.month + d.day

/-- Lexicographic strict order on dates (Python `date.__lt__`). -/
def Date.lexLt (a b : Date) : Prop :=
  a.year < b.year ∨ (a.year = b.year ∧
    (a.month < b.month ∨ (a.month = b.month ∧ a.day < b.day)))

/-- Lexicographic order on dates (Python `date.__le__`). -/
def Date.lexLe (a b : Date) : Prop :=
  a.year < b.year ∨ (a.year = b.year ∧
    (a.month < b.month ∨ (a.month = b.month ∧ a.day ≤ b.day)))

instance (a b : Date) : Decidable (Date.lexLt a b) := by
  unfold Date.lexLt; infer_instance

instance (a b : Date) : Decidable (Date.lexLe a b) := by
  unfold Date.lexLe; infer_instance

/-- Python `max(a, b)`: returns `b` if `b > a` else `a`. -/
def dateMax (a b : Date) : Date :=
  if Date.lexLt a b then b else a

/-- Decimal digits zero-padded to width 2 (`strftime` `%m`, `%d`). -/
def pad2 (n : Nat) : String :=
  if n < 10 then "0" ++ toString n else toString n

/-- Decimal digits zero-padded to width 4 (`strftime` `%Y`). -/
def pad4 (n : Nat) : String :=
  if n < 10 then "000" ++ toString n
  else if n < 100 then "00" ++ toString n
  else if n < 1000 then "0" ++ toString n
  else toString n

/-- `date.strftime("%Y-%m-%d")`. -/
def Date.toIso (d : Date) : String :=
  pad4 d.year ++ "-" ++ pad2 d.month ++ "-" ++ pad2 d.day

/-! ## Progression calculator (`calculate_progression`) -/

/-- Days in year `y`: 366 if leap else 365. -/
def daysInYear (y : Nat) : Nat :=
  if isLeap y then 366 else 365

/-- `START_DATE = datetime.date(2026, 1, 1)`. -/
def START_DATE : Date := ⟨2026, 1, 1⟩

/-- The gym-sets formula of main.py line 72 as a function of the elapsed
whole weeks: `min(6, 3 + (weeks_passed // 3))`. -/
def gymOfWeeks (w : Int) : Int :=
  min 6 (3 + w / 3)

/-- The dict returned by `calculate_progression`. -/
structure Progression where
  days_passed : Int
  weeks_passed : Int
  gym_sets : Int
  phase_index : Int
  date_str : String
deriving DecidableEq

/-- `calculate_progression()`, parametrized by the clock value
`today = datetime.date.today()`.  Python's `//` on the non-negative
`days_passed` agrees with `Int` division here. -/
def calculate_progression (today : Date) : Progression :=
  let calc_date := dateMax today START_DATE
  let days_passed : Int := (calc_date.toOrdinal : Int) - (START_DATE.toOrdinal : Int)
  let weeks_passed : Int := days_passed / 7
  let gym_sets : Int := min 6 (3 + weeks_passed / 3)
  let current_month := calc_date.month
  let phase_idx : Int :=
    if calc_date.year > 2026 then 3
    else if current_month = 1 then 0
    else if current_month = 2 then 1
    else if current_month = 3 then 2
    else 3
  { days_passed := days_passed
    weeks_passed := weeks_passed
    gym_sets := gym_sets
    phase_index := phase_idx
    date_str := calc_date.toIso }

/-! ## The user store

`load_db`/`save_db` read and write a JSON object mapping username to
UserProfile.  We model the store as an association list; `dbFind` is
`db[username]` lookup together with the `username in db` test, and `dbSet`
is `db[username] = profile`. -/

abbrev DB := List (String × UserProfile)

/-- `username in db` / `db[username]`. -/
def dbFind (db : DB) (u : String) : Option UserProfile :=
  match db with
  | [] => none
  | (k, v) :: rest => if k = u then some v else dbFind rest u

/-- `db[username] = p` (replace if present, insert otherwise). -/
def dbSet (db : DB) (u : String) (p : UserProfile) : DB :=
  match db with
  | [] => [(u, p)]
  | (k, v) :: rest => if k = u then (k, p) :: rest else (k, v) :: dbSet rest u p

/-! ## API endpoints

Each handler takes the loaded store and returns
`Except HTTPException (response, store-to-save)`.  An `error` result models a
raised `HTTPException`: the raise happens before `save_db(db)`, so the
persisted store is unchanged.  `runDB` gives the persisted store after a
request, reflecting exactly that semantics. -/

/-- The persisted store after running a mutating handler: on success the
saved store, on a raised exception the old store. -/
def runDB (h : DB → Except HTTPException (ρ × DB)) (db : DB) : DB :=
  match h db with
  | .ok (_, db') => db'
  | .error _ => db

/-- `POST /login`: create the user if absent, then return the stored record. -/
def login (user : UserProfile) (db : DB) : UserProfile × DB :=
  match dbFind db user.username with
  | some existing => (existing, db)
  | none => (user, dbSet db user.username user)

/-- The `locks` dict of the dashboard response. -/
structure Locks where
  academic : Bool
  skill : Bool
  workout : Bool
  reflection : Bool
deriving DecidableEq

/-- The `/dashboard` response `{user, progression, locks}`. -/
structure DashboardResponse where
  user : UserProfile
  progression : Progression
  locks : Locks
deriving DecidableEq

/-- `GET /dashboard/{username}`, parametrized by the clock value `today`. -/
def get_dashboard (today : Date) (username : String) (db : DB) :
    Except HTTPException DashboardResponse :=
  match dbFind db username with
  | none => .error ⟨404, "User not found"⟩
  | some user =>
    let progression := calculate_progression today
    let today_str := progression.date_str
    let today_logs := user.logs.filter (fun log => log.date == today_str)
    .ok { user := user
          progression := progression
          locks :=
            { academic := today_logs.any (fun l => l.action_type == "academic")
              skill := today_logs.any (fun l => l.action_type == "skill")
              workout := today_logs.any (fun l => l.action_type == "workout")
              reflection := user.reflections.any (fun r => r.date == today_str) } }

/-- The `/complete-task` success response `{status, new_xp, new_level}`. -/
structure CompleteResponse where
  status : String
  new_xp : Int
  new_level : Int
deriving DecidableEq

/-- `int(user['xp_limit'] * 1.5)`: float multiply then truncation toward
zero.  Exact for `|x| < 2^51`, where the float product is exact; every
claim below stays far inside that range. -/
def nextLimit (x : Int) : Int := Int.tdiv (3 * x) 2

/-- The record update performed by `/complete-task` once the lock check has
passed (main.py lines 142-157): `user['xp'] += 30`, append the log entry,
then the single-`if` Level Up Logic. -/
def applyTaskXP (user : UserProfile) (today_str aty : String) : UserProfile :=
  let xp_gain : Int := 30
  let xp1 := user.xp + xp_gain
  let new_log : LogEntry :=
    { date := today_str
      action_type := aty
      xp := xp_gain
      note := "Completed " ++ aty }
  let logs1 := user.logs ++ [new_log]
  -- Level Up Logic: a single `if`, not a loop
  if xp1 ≥ user.xp_limit then
    { user with
      level := user.level + 1
      xp := xp1 - user.xp_limit
      xp_limit := nextLimit user.xp_limit
      logs := logs1 }
  else
    { user with xp := xp1, logs := logs1 }

/-- `POST /complete-task`, parametrized by the clock value `today`. -/
def complete_task (today : Date) (req : ActionRequest) (db : DB) :
    Except HTTPException (CompleteResponse × DB) :=
  match dbFind db req.username with
  | none => .error ⟨404, "User not found"⟩
  | some user =>
    let progression := calculate_progression today
    let today_str := progression.date_str
    let today_logs := user.logs.filter (fun log => log.date == today_str)
    if today_logs.any (fun l => l.action_type == req.action_type) then
      .error ⟨400, "Task already completed today."⟩
    else
      let user' := applyTaskXP user today_str req.action_type
      .ok ({ status := "success", new_xp := user'.xp, new_level := user'.level },
           dbSet db req.username user')

/-- The record update performed by `/submit-reflection` (main.py lines
170-181): append the ReflectionEntry, `user['xp'] += 20`, append the
synthetic log entry.  Note: no lock check, no level-up, and the entry dates
come from the request body `req.date`, not from the clock. -/
def applyReflection (user : UserProfile) (req : ReflectionEntry) : UserProfile :=
  let xp_bonus : Int := 20
  let new_log : LogEntry :=
    { date := req.date
      action_type := "reflection"
      xp := xp_bonus
      note := "Daily Reflection Submitted" }
  { user with
    reflections := user.reflections ++ [req]
    xp := user.xp + xp_bonus
    logs := user.logs ++ [new_log] }

/-- `POST /submit-reflection?username=...`. -/
def submit_reflection (req : ReflectionEntry) (username : String) (db : DB) :
    Except HTTPException (String × DB) :=
  match dbFind db username with
  | none => .error ⟨404, "User not found"⟩
  | some user =>
    .ok ("success", dbSet db username (applyReflection user req))

/-! ## Analytics (`GET /analytics/{username}`) -/

/-- One chart of the analytics response: `{labels, data}`. -/
structure Chart where
  labels : List String
  data : List Int
deriving DecidableEq

/-- The `/analytics` response when the user exists. -/
structure AnalyticsResponse where
  xp_chart : Chart
  consistency_chart : Chart
deriving DecidableEq

/-- `sorted(entries, key=lambda x: x['date'])`: Python's `sorted` is the
unique stable sort for the key preorder, so a stable insertion sort by
date is the same function. -/
def sortLogs (l : List LogEntry) : List LogEntry :=
  l.insertionSort (fun a b => a.date ≤ b.date)

/-- `sorted(reflections, key=lambda x: x['date'])`, as `sortLogs`. -/
def sortReflections (l : List ReflectionEntry) : List ReflectionEntry :=
  l.insertionSort (fun a b => a.date ≤ b.date)

/-- The `running_xp` accumulation loop of `get_analytics`: emits one
running total per log entry. -/
def cumXP (acc : Int) : List LogEntry → List Int
  | [] => []
  | l :: rest => (acc + l.xp) :: cumXP (acc + l.xp) rest

/-- `GET /analytics/{username}`: `none` models the bare `{}` returned for an
unknown username (instead of a 404). -/
def get_analytics (username : String) (db : DB) : Option AnalyticsResponse :=
  match dbFind db username with
  | none => none
  | some user =>
    let logs := sortLogs user.logs
    let reflections := sortReflections user.reflections
    some
      { xp_chart := { labels := logs.map (fun l => l.date), data := cumXP 0 logs }
        consistency_chart :=
          { labels := reflections.map (fun r => r.date)
            data := reflections.map (fun _ => 1) } }

deriving instance DecidableEq for Except

/-- At most one LogEntry per (date, action_type) pair. -/
def UniqueLogs (logs : List LogEntry) : Prop :=
  List.Pairwise (fun a b => ¬(a.date = b.date ∧ a.action_type = b.action_type)) logs

instance (logs : List LogEntry) : Decidable (UniqueLogs logs) := by
  unfold UniqueLogs; infer_instance

instance : IsTotal LogEntry (fun a b => a.date ≤ b.date) :=
  ⟨fun a b => le_total a.date b.date⟩

instance : IsTrans LogEntry (fun a b => a.date ≤ b.date) :=
  ⟨fun _ _ _ h1 h2 => le_trans h1 h2⟩

/-! ## Calendar lemmas -/

lemma isLeap_iff (y : Nat) :
    isLeap y = true ↔ (y % 4 = 0 ∧ y % 100 ≠ 0) ∨ y % 400 = 0 := by
  unfold isLeap
  simp [Bool.or_eq_true, Bool.and_eq_true, beq_iff_eq, bne_iff_ne]

lemma leapsBefore_le_succ (n : Nat) : leapsBefore n ≤ leapsBefore (n + 1) := by
  unfold leapsBefore
  omega

lemma leapsBefore_mono : Monotone leapsBefore :=
  monotone_nat_of_le_succ leapsBefore_le_succ

lemma daysBeforeYear_mono {y1 y2 : Nat} (h : y1 ≤ y2) :
    daysBeforeYear y1 ≤ daysBeforeYear y2 := by
  unfold daysBeforeYear
  have := leapsBefore_mono (Nat.sub_le_sub_right h 1)
  omega

lemma daysBeforeYear_succ (y : Nat) (hy : 1 ≤ y) :
    daysBeforeYear (y + 1) = daysBeforeYear y + daysInYear y := by
  obtain ⟨n, rfl⟩ : ∃ n, y = n + 1 := ⟨y - 1, by omega⟩
  unfold daysBeforeYear daysInYear leapsBefore
  by_cases h : isLeap (n + 1) = true
  · rw [if_pos h]
    rw [isLeap_iff] at h
    simp only [Nat.add_sub_cancel]
    omega
  · rw [if_neg h]
    rw [isLeap_iff] at h
    simp only [Nat.add_sub_cancel]
    push_neg at h
    omega

lemma daysBeforeMonth_step (y m : Nat) (hm : 1 ≤ m) :
    daysBeforeMonth y (m + 1) = daysBeforeMonth y m + daysInMonth y m := by
  match m with
  | k + 1 => rfl

lemma daysBeforeMonth_le_succ (y m : Nat) :
    daysBeforeMonth y m ≤ daysBeforeMonth y (m + 1) := by
  match m with
  | 0 => simp [daysBeforeMonth]
  | k + 1 => rw [daysBeforeMonth_step y (k + 1) (by omega)]; omega

lemma daysBeforeMonth_mono (y : Nat) : Monotone (daysBeforeMonth y) :=
  monotone_nat_of_le_succ (daysBeforeMonth_le_succ y)

lemma daysBeforeMonth_add_le (y m : Nat) (h1 : 1 ≤ m) (h12 : m ≤ 12) :
    daysBeforeMonth y m + daysInMonth y m ≤ daysInYear y := by
  interval_cases m <;>
    by_cases h : isLeap y = true <;>
      simp [daysBeforeMonth, daysInMonth, daysInYear, h]

lemma toOrdinal_mono {d1 d2 : Date} (h1 : d1.Valid) (h2 : d2.Valid)
    (h : Date.lexLe d1 d2) : d1.toOrdinal ≤ d2.toOrdinal := by
  obtain ⟨y1, m1, a1⟩ := d1
  obtain ⟨y2, m2, a2⟩ := d2
  obtain ⟨hy1, hm1l, hm1u, ha1l, ha1u⟩ := h1
  obtain ⟨hy2, hm2l, hm2u, ha2l, ha2u⟩ := h2
  unfold Date.toOrdinal
  simp only at hy1 hm1l hm1u ha1l ha1u hy2 hm2l hm2u ha2l ha2u ⊢
  rcases h with hy | ⟨hyeq, hm | ⟨hmeq, hd⟩⟩
  · simp only at hy
    have hA : daysBeforeMonth y1 m1 + a1 ≤ daysInYear y1 := by
      have := daysBeforeMonth_add_le y1 m1 hm1l hm1u
      omega
    have hB : daysBeforeYear (y1 + 1) = daysBeforeYear y1 + daysInYear y1 :=
      daysBeforeYear_succ y1 hy1
    have hC : daysBeforeYear (y1 + 1) ≤ daysBeforeYear y2 := daysBeforeYear_mono hy
    have hD : 0 < daysBeforeMonth y2 m2 + a2 := by omega
    omega
  · simp only at hyeq hm
    subst hyeq
    have hstep : daysBeforeMonth y1 m1 + a1 ≤ daysBeforeMonth y1 (m1 + 1) := by
      rw [daysBeforeMonth_step y1 m1 hm1l]; omega
    have hmono : daysBeforeMonth y1 (m1 + 1) ≤ daysBeforeMonth y1 m2 :=
      daysBeforeMonth_mono y1 hm
    omega
  · simp only at hyeq hmeq hd
    subst hyeq; subst hmeq
    omega

lemma START_DATE_valid : START_DATE.Valid := by decide

lemma lexLe_of_not_lexLt {a b : Date} (h : ¬ Date.lexLt a b) : Date.lexLe b a := by
  unfold Date.lexLt at h
  unfold Date.lexLe
  omega

lemma lexLe_trans {a b c : Date} (h1 : Date.lexLe a b) (h2 : Date.lexLe b c) :
    Date.lexLe a c := by
  unfold Date.lexLe at h1 h2 ⊢
  omega

lemma dateMax_valid {t : Date} (h : t.Valid) : (dateMax t START_DATE).Valid := by
  unfold dateMax
  split
  · exact START_DATE_valid
  · exact h

lemma lexLe_START_dateMax (t : Date) :
    Date.lexLe START_DATE (dateMax t START_DATE) := by
  unfold dateMax
  split
  · unfold Date.lexLe; omega
  · exact lexLe_of_not_lexLt (by assumption)

lemma toOrdinal_START_le {t : Date} (h : t.Valid) :
    START_DATE.toOrdinal ≤ (dateMax t START_DATE).toOrdinal :=
  toOrdinal_mono START_DATE_valid (dateMax_valid h) (lexLe_START_dateMax t)

lemma dateMax_eq_self {t : Date} (h : Date.lexLe START_DATE t) :
    dateMax t START_DATE = t := by
  unfold dateMax
  split
  · rename_i hlt
    unfold Date.lexLt at hlt
    unfold Date.lexLe at h
    exfalso; omega
  · rfl

/-! ## Store lemmas -/

lemma dbFind_dbSet_same (db : DB) (u : String) (p : UserProfile) :
    dbFind (dbSet db u p) u = some p := by
  induction db with
  | nil => simp [dbSet, dbFind]
  | cons kv rest ih =>
    obtain ⟨k, v⟩ := kv
    by_cases h : k = u
    · simp [dbSet, dbFind, h]
    · simp [dbSet, dbFind, h, ih]

/-- Inversion of a successful `/complete-task`: the lock check was clear
and the saved store holds the updated record. -/
lemma complete_task_ok_inv {today : Date} {req : ActionRequest} {db : DB}
    {user : UserProfile} {resp : CompleteResponse} {db' : DB}
    (hu : dbFind db req.username = some user)
    (hok : complete_task today req db = .ok (resp, db')) :
    (∀ l ∈ user.logs,
        ¬(l.date = (calculate_progression today).date_str ∧
          l.action_type = req.action_type)) ∧
    db' = dbSet db req.username
            (applyTaskXP user (calculate_progression today).date_str
              req.action_type) := by
  unfold complete_task at hok
  rw [hu] at hok
  simp only at hok
  split at hok
  · cases hok
  · rename_i hguard
    simp only [List.any_eq_true, List.mem_filter, beq_iff_eq, not_exists,
      not_and] at hguard
    simp only [Except.ok.injEq, Prod.mk.injEq] at hok
    refine ⟨fun l hl hcon => ?_, hok.2.symm⟩
    exact hguard l ⟨hl, hcon.1⟩ hcon.2

/-! ## Claim theorems -/

/-- C3: if a LogEntry with today's date and the requested action_type is
already stored, `/complete-task` fails with HTTP 400
"Task already completed today." and the persisted store is unchanged. -/
theorem C3_conflict_unchanged (today : Date) (req : ActionRequest) (db : DB)
    (user : UserProfile) (l : LogEntry)
    (hu : dbFind db req.username = some user)
    (hl : l ∈ user.logs)
    (hd : l.date = (calculate_progression today).date_str)
    (ht : l.action_type = req.action_type) :
    complete_task today req db = .error ⟨400, "Task already completed today."⟩ ∧
    runDB (complete_task today req) db = db := by
  have herr : complete_task today req db
      = .error ⟨400, "Task already completed today."⟩ := by
    unfold complete_task
    rw [hu]
    simp only
    rw [if_pos]
    simp only [List.any_eq_true, List.mem_filter, beq_iff_eq]
    exact ⟨l, ⟨hl, hd⟩, ht⟩
  exact ⟨herr, by unfold runDB; rw [herr]⟩

/-- C4: for an existing user, `/submit-reflection` always succeeds (no lock
check), adds exactly 20 XP, and appends exactly one ReflectionEntry and one
reflection LogEntry with xp 20. -/
theorem C4_reflection_always_succeeds (req : ReflectionEntry)
    (username : String) (db : DB) (user : UserProfile)
    (hu : dbFind db username = some user) :
    submit_reflection req username db
      = .ok ("success", dbSet db username (applyReflection user req)) ∧
    (applyReflection user req).xp = user.xp + 20 ∧
    (applyReflection user req).reflections = user.reflections ++ [req] ∧
    (applyReflection user req).logs
      = user.logs ++ [{ date := req.date, action_type := "reflection",
                        xp := 20, note := "Daily Reflection Submitted" }] := by
  refine ⟨?_, rfl, rfl, rfl⟩
  unfold submit_reflection
  rw [hu]

/-- C7: login is idempotent — when the username exists, the response is the
stored record and the store is returned unchanged, whatever the rest of the
request body holds. -/
theorem C7_login_idempotent (u : UserProfile) (db : DB)
    (existing : UserProfile) (h : dbFind db u.username = some existing) :
    login u db = (existing, db) := by
  unfold login
  rw [h]

/-- C9: for an unknown username, `/dashboard`, `/complete-task` and
`/submit-reflection` fail with HTTP 404 "User not found" and leave the
store unchanged, while `/analytics` returns the empty object. -/
theorem C9_unknown_username (today : Date) (username aty : String)
    (r : ReflectionEntry) (db : DB) (h : dbFind db username = none) :
    get_dashboard today username db = .error ⟨404, "User not found"⟩ ∧
    complete_task today ⟨username, aty⟩ db = .error ⟨404, "User not found"⟩ ∧
    submit_reflection r username db = .error ⟨404, "User not found"⟩ ∧
    runDB (complete_task today ⟨username, aty⟩) db = db ∧
    runDB (submit_reflection r username) db = db ∧
    get_analytics username db = none := by
  have h1 : get_dashboard today username db = .error ⟨404, "User not found"⟩ := by
    unfold get_dashboard; rw [h]
  have h2 : complete_task today ⟨username, aty⟩ db
      = .error ⟨404, "User not found"⟩ := by
    unfold complete_task; rw [h]
  have h3 : submit_reflection r username db = .error ⟨404, "User not found"⟩ := by
    unfold submit_reflection; rw [h]
  have h4 : get_analytics username db = none := by
    unfold get_analytics; rw [h]
  exact ⟨h1, h2, h3, by unfold runDB; rw [h2], by unfold runDB; rw [h3], h4⟩

/-- C10: the reflection and synthetic log entries carry the client-supplied
`req.date` (the handler never consults the clock), and the dashboard's
reflection lock is true iff some stored ReflectionEntry's date equals the
server's current date string. -/
theorem C10_reflection_date_and_lock (today : Date) (req : ReflectionEntry)
    (username : String) (db : DB) (user : UserProfile)
    (resp : DashboardResponse)
    (hu : dbFind db username = some user)
    (hd : get_dashboard today username db = .ok resp) :
    (applyReflection user req).logs
      = user.logs ++ [{ date := req.date, action_type := "reflection",
                        xp := 20, note := "Daily Reflection Submitted" }] ∧
    (applyReflection user req).reflections = user.reflections ++ [req] ∧
    (resp.locks.reflection = true ↔
      ∃ x ∈ user.reflections,
        x.date = (calculate_progression today).date_str) := by
  refine ⟨rfl, rfl, ?_⟩
  unfold get_dashboard at hd
  rw [hu] at hd
  simp only [Except.ok.injEq] at hd
  rw [← hd]
  simp only [List.any_eq_true, beq_iff_eq]

/-- C1 counterexample: starting from an empty store, log in with the
default profile (xp 0, xp_limit 100) and submit five reflections.  Each
grants 20 XP with no level-up resolution, so the record settles at
xp = 100, xp_limit = 100, violating xp < xp_limit. -/
theorem C1_counterexample :
    (dbFind
      (runDB (submit_reflection ⟨"2026-01-05", "a", "s", "n"⟩ "alice")
        (runDB (submit_reflection ⟨"2026-01-04", "a", "s", "n"⟩ "alice")
          (runDB (submit_reflection ⟨"2026-01-03", "a", "s", "n"⟩ "alice")
            (runDB (submit_reflection ⟨"2026-01-02", "a", "s", "n"⟩ "alice")
              (runDB (submit_reflection ⟨"2026-01-01", "a", "s", "n"⟩ "alice")
                (login { username := "alice" } []).2))))) "alice").map
      (fun u => (u.xp, u.xp_limit)) = some (100, 100) ∧
    ¬ ((100 : Int) < 100) := by
  exact ⟨by decide, by decide⟩

/-- C1 amended: a successful `/complete-task` preserves
0 ≤ xp < xp_limit whenever the pre-state satisfies it and xp_limit ≥ 20;
`/submit-reflection` performs no level-up resolution and guarantees only
0 ≤ xp (it can leave xp ≥ xp_limit). -/
theorem C1_amended_xp_bounds (user : UserProfile) (today_str aty : String)
    (r : ReflectionEntry) (h0 : 0 ≤ user.xp) (h1 : user.xp < user.xp_limit)
    (h2 : 20 ≤ user.xp_limit) :
    (0 ≤ (applyTaskXP user today_str aty).xp ∧
      (applyTaskXP user today_str aty).xp
        < (applyTaskXP user today_str aty).xp_limit) ∧
    0 ≤ (applyReflection user r).xp := by
  refine ⟨?_, by unfold applyReflection; simp only; omega⟩
  unfold applyTaskXP nextLimit
  simp only
  split
  · rename_i hge
    simp only
    have htd : Int.tdiv (3 * user.xp_limit) 2 = (3 * user.xp_limit) / 2 :=
      Int.tdiv_eq_ediv (by omega) (by omega)
    rw [htd]
    omega
  · rename_i hlt
    simp only
    omega

/-- C2 counterexample: submitting two reflections with the same date gives
the user two LogEntry values with the pair (2026-01-01, reflection). -/
theorem C2_counterexample :
    (dbFind
      (runDB (submit_reflection ⟨"2026-01-01", "a", "s", "n"⟩ "bob")
        (runDB (submit_reflection ⟨"2026-01-01", "a", "s", "n"⟩ "bob")
          (login { username := "bob" } []).2)) "bob").map
      (fun u => (u.logs.filter
        (fun l => l.date == "2026-01-01" && l.action_type == "reflection")).length)
      = some 2 := by
  decide

/-- The log list written by `applyTaskXP`: the original logs with exactly
one appended entry for (today_str, action_type). -/
lemma applyTaskXP_logs (user : UserProfile) (ts aty : String) :
    (applyTaskXP user ts aty).logs
      = user.logs ++ [{ date := ts, action_type := aty, xp := 30,
                        note := "Completed " ++ aty }] := by
  unfold applyTaskXP
  simp only
  split <;> rfl

/-- C2 amended: per-(date, action_type) uniqueness of the logs list is
preserved by a successful `/complete-task` (its lock check rules out a
duplicate of the appended entry) and trivially by `/login` on an existing
username (store unchanged); `/submit-reflection` does not preserve it. -/
theorem C2_amended_uniqueness (today : Date) (req : ActionRequest) (db : DB)
    (user u2 uex : UserProfile) (resp : CompleteResponse) (db' : DB)
    (hu : dbFind db req.username = some user)
    (huniq : UniqueLogs user.logs)
    (hok : complete_task today req db = .ok (resp, db'))
    (hex : dbFind db u2.username = some uex) :
    dbFind db' req.username
      = some (applyTaskXP user (calculate_progression today).date_str
               req.action_type) ∧
    UniqueLogs (applyTaskXP user (calculate_progression today).date_str
                 req.action_type).logs ∧
    (login u2 db).2 = db := by
  obtain ⟨hguard, hdb'⟩ := complete_task_ok_inv hu hok
  refine ⟨?_, ?_, ?_⟩
  · rw [hdb']; exact dbFind_dbSet_same db req.username _
  · rw [applyTaskXP_logs]
    unfold UniqueLogs
    rw [List.pairwise_append]
    refine ⟨huniq, List.pairwise_singleton _ _, ?_⟩
    intro a ha b hb
    simp only [List.mem_singleton] at hb
    subst hb
    simp only
    intro hcon
    exact hguard a ha ⟨hcon.1, hcon.2⟩
  · unfold login
    rw [hex]

/-- The `gym_sets` field of the progression snapshot, by definition. -/
lemma gym_sets_def (t : Date) :
    (calculate_progression t).gym_sets
      = min 6 (3 + (((dateMax t START_DATE).toOrdinal : Int)
                      - (START_DATE.toOrdinal : Int)) / 7 / 3) := rfl

/-- The `weeks_passed` field of the progression snapshot, by definition. -/
lemma weeks_passed_def (t : Date) :
    (calculate_progression t).weeks_passed
      = (((dateMax t START_DATE).toOrdinal : Int)
          - (START_DATE.toOrdinal : Int)) / 7 := rfl

/-- C5: on or after the start date, gym_sets equals
min(6, 3 + ((d − start in whole days) // 7) // 3); it is non-decreasing in
the date, equals 3 at the start date, is bounded in [3, 6], and moves by
exactly one more set (capped at 6) after 3 more full weeks. -/
theorem C5_gym_sets (d1 d2 : Date) (h1 : d1.Valid) (h2 : d2.Valid)
    (hs : Date.lexLe START_DATE d1) (hle : Date.lexLe d1 d2) :
    (calculate_progression d1).gym_sets
      = min 6 (3 + (((d1.toOrdinal : Int) - (START_DATE.toOrdinal : Int)) / 7) / 3) ∧
    (calculate_progression d1).gym_sets ≤ (calculate_progression d2).gym_sets ∧
    (calculate_progression START_DATE).gym_sets = 3 ∧
    3 ≤ (calculate_progression d1).gym_sets ∧
    (calculate_progression d1).gym_sets ≤ 6 ∧
    (calculate_progression d1).gym_sets
      = gymOfWeeks (calculate_progression d1).weeks_passed ∧
    gymOfWeeks ((calculate_progression d1).weeks_passed + 3)
      = min 6 ((calculate_progression d1).gym_sets + 1) := by
  have he1 : dateMax d1 START_DATE = d1 := dateMax_eq_self hs
  have he2 : dateMax d2 START_DATE = d2 :=
    dateMax_eq_self (lexLe_trans hs hle)
  have hn1 : START_DATE.toOrdinal ≤ d1.toOrdinal :=
    toOrdinal_mono START_DATE_valid h1 hs
  have hn2 : d1.toOrdinal ≤ d2.toOrdinal := toOrdinal_mono h1 h2 hle
  refine ⟨?_, ?_, by decide, ?_, ?_, rfl, ?_⟩
  · rw [gym_sets_def, he1]
  · rw [gym_sets_def, gym_sets_def, he1, he2]
    omega
  · rw [gym_sets_def, he1]
    omega
  · rw [gym_sets_def]
    omega
  · rw [gym_sets_def, weeks_passed_def, he1]
    unfold gymOfWeeks
    omega

/-- The `phase_index` field of the progression snapshot, by definition. -/
lemma phase_index_def (t : Date) :
    (calculate_progression t).phase_index
      = (if (dateMax t START_DATE).year > 2026 then (3 : Int)
         else if (dateMax t START_DATE).month = 1 then 0
         else if (dateMax t START_DATE).month = 2 then 1
         else if (dateMax t START_DATE).month = 3 then 2
         else 3) := rfl

/-- The `days_passed` field of the progression snapshot, by definition. -/
lemma days_passed_def (t : Date) :
    (calculate_progression t).days_passed
      = ((dateMax t START_DATE).toOrdinal : Int)
          - (START_DATE.toOrdinal : Int) := rfl

/-- C6: the snapshot is computed from effective_date = max(today, start):
days_passed is the (non-negative) whole-day distance from the start to the
effective date, and phase_index is 0/1/2 in January/February/March of the
start year 2026, 3 from April on, and 3 in every later year. -/
theorem C6_effective_date_and_phase (today : Date) (h : today.Valid) :
    0 ≤ (calculate_progression today).days_passed ∧
    (calculate_progression today).days_passed
      = ((dateMax today START_DATE).toOrdinal : Int)
          - (START_DATE.toOrdinal : Int) ∧
    ((dateMax today START_DATE).year = 2026 →
      ((dateMax today START_DATE).month = 1 →
        (calculate_progression today).phase_index = 0) ∧
      ((dateMax today START_DATE).month = 2 →
        (calculate_progression today).phase_index = 1) ∧
      ((dateMax today START_DATE).month = 3 →
        (calculate_progression today).phase_index = 2) ∧
      (4 ≤ (dateMax today START_DATE).month →
        (calculate_progression today).phase_index = 3)) ∧
    (2026 < (dateMax today START_DATE).year →
      (calculate_progression today).phase_index = 3) := by
  have hord := toOrdinal_START_le h
  refine ⟨?_, days_passed_def today, ?_, ?_⟩
  · rw [days_passed_def]
    omega
  · intro hy
    rw [phase_index_def]
    refine ⟨fun hm => ?_, fun hm => ?_, fun hm => ?_, fun hm => ?_⟩ <;>
      split_ifs <;> omega
  · intro hy
    rw [phase_index_def]
    split_ifs <;> omega

/-! ## Analytics lemmas -/

lemma cumXP_cons (a : Int) (x : LogEntry) (l : List LogEntry) :
    cumXP a (x :: l) = (a + x.xp) :: cumXP (a + x.xp) l := rfl

lemma cumXP_chain (a : Int) (l : List LogEntry) (h : ∀ x ∈ l, 0 ≤ x.xp) :
    List.Chain' (fun p q => p ≤ q) (cumXP a l) := by
  induction l generalizing a with
  | nil => simp [cumXP]
  | cons x xs ih =>
    rw [cumXP_cons]
    cases xs with
    | nil => simp [cumXP]
    | cons y ys =>
      rw [cumXP_cons, List.chain'_cons]
      constructor
      · have : 0 ≤ y.xp := h y (by simp)
        omega
      · rw [← cumXP_cons]
        exact ih (a + x.xp) (fun z hz => h z (List.mem_cons_of_mem x hz))

lemma cumXP_getLast (a : Int) (l : List LogEntry) (h : l ≠ []) :
    (cumXP a l).getLast? = some (a + (l.map (fun x => x.xp)).sum) := by
  induction l generalizing a with
  | nil => exact absurd rfl h
  | cons x xs ih =>
    rw [cumXP_cons]
    cases xs with
    | nil => simp [cumXP]
    | cons y ys =>
      rw [cumXP_cons, List.getLast?_cons_cons, ← cumXP_cons,
        ih (a + x.xp) (by simp)]
      simp [add_assoc]

lemma mem_sortLogs {x : LogEntry} {l : List LogEntry} :
    x ∈ sortLogs l ↔ x ∈ l :=
  (List.perm_insertionSort _ l).mem_iff

lemma sum_sortLogs (l : List LogEntry) :
    ((sortLogs l).map (fun x => x.xp)).sum = (l.map (fun x => x.xp)).sum :=
  ((List.perm_insertionSort _ l).map _).sum_eq

lemma sortLogs_ne_nil {l : List LogEntry} (h : l ≠ []) : sortLogs l ≠ [] := by
  intro hc
  apply h
  have hlen := (List.perm_insertionSort
    (fun a b : LogEntry => a.date ≤ b.date) l).length_eq
  rw [show List.insertionSort (fun a b : LogEntry => a.date ≤ b.date) l
      = sortLogs l from rfl, hc] at hlen
  exact List.length_eq_zero.mp hlen.symm

lemma sortLogs_sorted (l : List LogEntry) :
    List.Pairwise (fun a b => a.date ≤ b.date) (sortLogs l) :=
  List.sorted_insertionSort _ l

/-- C8: when every stored log entry has non-negative xp, the cumulative-XP
series is non-decreasing and ends at the total of all logged xp; a user
with no logs (resp. no reflections) gets an empty xp (resp. consistency)
series; the series is built over the logs stably sorted by date ascending,
so its labels are ascending as well. -/
theorem C8_analytics_series (username : String) (db : DB)
    (user : UserProfile) (resp : AnalyticsResponse)
    (hu : dbFind db username = some user)
    (hxp : ∀ l ∈ user.logs, 0 ≤ l.xp)
    (hr : get_analytics username db = some resp) :
    List.Chain' (fun a b => a ≤ b) resp.xp_chart.data ∧
    (user.logs = [] → resp.xp_chart.data = [] ∧ resp.xp_chart.labels = []) ∧
    (user.reflections = [] →
      resp.consistency_chart.data = [] ∧ resp.consistency_chart.labels = []) ∧
    (user.logs ≠ [] →
      resp.xp_chart.data.getLast?
        = some ((user.logs.map (fun l => l.xp)).sum)) ∧
    resp.xp_chart.data = cumXP 0 (sortLogs user.logs) ∧
    resp.xp_chart.labels = (sortLogs user.logs).map (fun l => l.date) ∧
    List.Pairwise (fun a b => a ≤ b) resp.xp_chart.labels := by
  unfold get_analytics at hr
  rw [hu] at hr
  simp only [Option.some.injEq] at hr
  subst hr
  refine ⟨?_, ?_, ?_, ?_, rfl, rfl, ?_⟩
  · exact cumXP_chain 0 (sortLogs user.logs)
      (fun x hx => hxp x (mem_sortLogs.mp hx))
  · intro h
    rw [h]
    exact ⟨rfl, rfl⟩
  · intro h
    rw [h]
    exact ⟨rfl, rfl⟩
  · intro h
    rw [cumXP_getLast 0 (sortLogs user.logs) (sortLogs_ne_nil h),
      sum_sortLogs, zero_add]
  · exact List.pairwise_map.mpr (sortLogs_sorted user.logs)

/-! ## Witnesses: each hypothesis-bearing claim theorem applied at a
concrete input. -/

/-- Witness for C1 amended: user at xp 90 / limit 100. -/
theorem C1_amended_xp_bounds_witness :
    (0 : Int) ≤ 90 ∧ (90 : Int) < 100 ∧ (20 : Int) ≤ 100 ∧
    ((0 ≤ (applyTaskXP ⟨"u", 1, 90, 100, [], []⟩ "2026-01-01" "workout").xp ∧
      (applyTaskXP ⟨"u", 1, 90, 100, [], []⟩ "2026-01-01" "workout").xp
        < (applyTaskXP ⟨"u", 1, 90, 100, [], []⟩ "2026-01-01" "workout").xp_limit) ∧
     0 ≤ (applyReflection ⟨"u", 1, 90, 100, [], []⟩ ⟨"2026-01-01", "a", "s", "n"⟩).xp) :=
  ⟨by decide, by decide, by decide,
    C1_amended_xp_bounds ⟨"u", 1, 90, 100, [], []⟩ "2026-01-01" "workout"
      ⟨"2026-01-01", "a", "s", "n"⟩ (by decide) (by decide) (by decide)⟩

/-- Witness for C2 amended: fresh user completes a workout. -/
theorem C2_amended_uniqueness_witness :
    dbFind [("alice", ⟨"alice", 1, 0, 100, [], []⟩)] "alice"
      = some ⟨"alice", 1, 0, 100, [], []⟩ ∧
    UniqueLogs (⟨"alice", 1, 0, 100, [], []⟩ : UserProfile).logs ∧
    complete_task ⟨2026, 1, 1⟩ ⟨"alice", "workout"⟩
        [("alice", ⟨"alice", 1, 0, 100, [], []⟩)]
      = .ok (⟨"success", 30, 1⟩,
          dbSet [("alice", ⟨"alice", 1, 0, 100, [], []⟩)] "alice"
            (applyTaskXP ⟨"alice", 1, 0, 100, [], []⟩
              (calculate_progression ⟨2026, 1, 1⟩).date_str "workout")) ∧
    dbFind [("alice", ⟨"alice", 1, 0, 100, [], []⟩)]
        (UserProfile.username ⟨"alice", 9, 9, 9, [], []⟩)
      = some ⟨"alice", 1, 0, 100, [], []⟩ ∧
    (dbFind
        (dbSet [("alice", ⟨"alice", 1, 0, 100, [], []⟩)] "alice"
          (applyTaskXP ⟨"alice", 1, 0, 100, [], []⟩
            (calculate_progression ⟨2026, 1, 1⟩).date_str "workout")) "alice"
      = some (applyTaskXP ⟨"alice", 1, 0, 100, [], []⟩
               (calculate_progression ⟨2026, 1, 1⟩).date_str "workout") ∧
     UniqueLogs (applyTaskXP ⟨"alice", 1, 0, 100, [], []⟩
                  (calculate_progression ⟨2026, 1, 1⟩).date_str "workout").logs ∧
     (login ⟨"alice", 9, 9, 9, [], []⟩
        [("alice", ⟨"alice", 1, 0, 100, [], []⟩)]).2
       = [("alice", ⟨"alice", 1, 0, 100, [], []⟩)]) :=
  ⟨by decide, by decide, by decide, by decide,
    C2_amended_uniqueness ⟨2026, 1, 1⟩ ⟨"alice", "workout"⟩
      [("alice", ⟨"alice", 1, 0, 100, [], []⟩)]
      ⟨"alice", 1, 0, 100, [], []⟩ ⟨"alice", 9, 9, 9, [], []⟩
      ⟨"alice", 1, 0, 100, [], []⟩ ⟨"success", 30, 1⟩ _
      (by decide) (by decide) (by decide) (by decide)⟩

/-- Witness for C3: a workout already logged today is rejected. -/
theorem C3_conflict_unchanged_witness :
    dbFind [("alice", ⟨"alice", 1, 0, 100,
        [⟨"2026-01-01", "workout", 30, "x"⟩], []⟩)] "alice"
      = some ⟨"alice", 1, 0, 100, [⟨"2026-01-01", "workout", 30, "x"⟩], []⟩ ∧
    (⟨"2026-01-01", "workout", 30, "x"⟩ : LogEntry)
      ∈ (⟨"alice", 1, 0, 100, [⟨"2026-01-01", "workout", 30, "x"⟩], []⟩
          : UserProfile).logs ∧
    (⟨"2026-01-01", "workout", 30, "x"⟩ : LogEntry).date
      = (calculate_progression ⟨2026, 1, 1⟩).date_str ∧
    (⟨"2026-01-01", "workout", 30, "x"⟩ : LogEntry).action_type
      = (⟨"alice", "workout"⟩ : ActionRequest).action_type ∧
    (complete_task ⟨2026, 1, 1⟩ ⟨"alice", "workout"⟩
        [("alice", ⟨"alice", 1, 0, 100,
            [⟨"2026-01-01", "workout", 30, "x"⟩], []⟩)]
      = .error ⟨400, "Task already completed today."⟩ ∧
     runDB (complete_task ⟨2026, 1, 1⟩ ⟨"alice", "workout"⟩)
        [("alice", ⟨"alice", 1, 0, 100,
            [⟨"2026-01-01", "workout", 30, "x"⟩], []⟩)]
      = [("alice", ⟨"alice", 1, 0, 100,
            [⟨"2026-01-01", "workout", 30, "x"⟩], []⟩)]) :=
  ⟨by decide, by decide, by decide, by decide,
    C3_conflict_unchanged ⟨2026, 1, 1⟩ ⟨"alice", "workout"⟩
      [("alice", ⟨"alice", 1, 0, 100,
          [⟨"2026-01-01", "workout", 30, "x"⟩], []⟩)]
      ⟨"alice", 1, 0, 100, [⟨"2026-01-01", "workout", 30, "x"⟩], []⟩
      ⟨"2026-01-01", "workout", 30, "x"⟩
      (by decide) (by decide) (by decide) (by decide)⟩

/-- Witness for C4: a reflection for an existing user. -/
theorem C4_reflection_always_succeeds_witness :
    dbFind [("alice", ⟨"alice", 1, 0, 100, [], []⟩)] "alice"
      = some ⟨"alice", 1, 0, 100, [], []⟩ ∧
    (submit_reflection ⟨"2026-01-07", "ac", "sk", "no"⟩ "alice"
        [("alice", ⟨"alice", 1, 0, 100, [], []⟩)]
      = .ok ("success",
          dbSet [("alice", ⟨"alice", 1, 0, 100, [], []⟩)] "alice"
            (applyReflection ⟨"alice", 1, 0, 100, [], []⟩
              ⟨"2026-01-07", "ac", "sk", "no"⟩)) ∧
     (applyReflection ⟨"alice", 1, 0, 100, [], []⟩
        ⟨"2026-01-07", "ac", "sk", "no"⟩).xp
      = (⟨"alice", 1, 0, 100, [], []⟩ : UserProfile).xp + 20 ∧
     (applyReflection ⟨"alice", 1, 0, 100, [], []⟩
        ⟨"2026-01-07", "ac", "sk", "no"⟩).reflections
      = (⟨"alice", 1, 0, 100, [], []⟩ : UserProfile).reflections
          ++ [⟨"2026-01-07", "ac", "sk", "no"⟩] ∧
     (applyReflection ⟨"alice", 1, 0, 100, [], []⟩
        ⟨"2026-01-07", "ac", "sk", "no"⟩).logs
      = (⟨"alice", 1, 0, 100, [], []⟩ : UserProfile).logs
          ++ [{ date := "2026-01-07", action_type := "reflection",
                xp := 20, note := "Daily Reflection Submitted" }]) :=
  ⟨by decide,
    C4_reflection_always_succeeds ⟨"2026-01-07", "ac", "sk", "no"⟩ "alice"
      [("alice", ⟨"alice", 1, 0, 100, [], []⟩)]
      ⟨"alice", 1, 0, 100, [], []⟩ (by decide)⟩

/-- Witness for C5 at d1 = 2026-01-01 and d2 = 2026-03-15. -/
theorem C5_gym_sets_witness :
    (⟨2026, 1, 1⟩ : Date).Valid ∧ (⟨2026, 3, 15⟩ : Date).Valid ∧
    Date.lexLe START_DATE ⟨2026, 1, 1⟩ ∧
    Date.lexLe ⟨2026, 1, 1⟩ ⟨2026, 3, 15⟩ ∧
    ((calculate_progression ⟨2026, 1, 1⟩).gym_sets
      = min 6 (3 + ((((⟨2026, 1, 1⟩ : Date).toOrdinal : Int)
          - (START_DATE.toOrdinal : Int)) / 7) / 3) ∧
     (calculate_progression ⟨2026, 1, 1⟩).gym_sets
        ≤ (calculate_progression ⟨2026, 3, 15⟩).gym_sets ∧
     (calculate_progression START_DATE).gym_sets = 3 ∧
     3 ≤ (calculate_progression ⟨2026, 1, 1⟩).gym_sets ∧
     (calculate_progression ⟨2026, 1, 1⟩).gym_sets ≤ 6 ∧
     (calculate_progression ⟨2026, 1, 1⟩).gym_sets
        = gymOfWeeks (calculate_progression ⟨2026, 1, 1⟩).weeks_passed ∧
     gymOfWeeks ((calculate_progression ⟨2026, 1, 1⟩).weeks_passed + 3)
        = min 6 ((calculate_progression ⟨2026, 1, 1⟩).gym_sets + 1)) :=
  ⟨by decide, by decide, by decide, by decide,
    C5_gym_sets ⟨2026, 1, 1⟩ ⟨2026, 3, 15⟩
      (by decide) (by decide) (by decide) (by decide)⟩

/-- Witness for C6 at today = 2026-02-10. -/
theorem C6_effective_date_and_phase_witness :
    (⟨2026, 2, 10⟩ : Date).Valid ∧
    (0 ≤ (calculate_progression ⟨2026, 2, 10⟩).days_passed ∧
     (calculate_progression ⟨2026, 2, 10⟩).days_passed
      = ((dateMax ⟨2026, 2, 10⟩ START_DATE).toOrdinal : Int)
          - (START_DATE.toOrdinal : Int) ∧
     ((dateMax ⟨2026, 2, 10⟩ START_DATE).year = 2026 →
       ((dateMax ⟨2026, 2, 10⟩ START_DATE).month = 1 →
         (calculate_progression ⟨2026, 2, 10⟩).phase_index = 0) ∧
       ((dateMax ⟨2026, 2, 10⟩ START_DATE).month = 2 →
         (calculate_progression ⟨2026, 2, 10⟩).phase_index = 1) ∧
       ((dateMax ⟨2026, 2, 10⟩ START_DATE).month = 3 →
         (calculate_progression ⟨2026, 2, 10⟩).phase_index = 2) ∧
       (4 ≤ (dateMax ⟨2026, 2, 10⟩ START_DATE).month →
         (calculate_progression ⟨2026, 2, 10⟩).phase_index = 3)) ∧
     (2026 < (dateMax ⟨2026, 2, 10⟩ START_DATE).year →
       (calculate_progression ⟨2026, 2, 10⟩).phase_index = 3)) :=
  ⟨by decide, C6_effective_date_and_phase ⟨2026, 2, 10⟩ (by decide)⟩

/-- Witness for C7: login with a different request body for an existing
username. -/
theorem C7_login_idempotent_witness :
    dbFind [("alice", ⟨"alice", 1, 0, 100, [], []⟩)]
        (UserProfile.username ⟨"alice", 3, 50, 200, [], []⟩)
      = some ⟨"alice", 1, 0, 100, [], []⟩ ∧
    login ⟨"alice", 3, 50, 200, [], []⟩
        [("alice", ⟨"alice", 1, 0, 100, [], []⟩)]
      = (⟨"alice", 1, 0, 100, [], []⟩,
         [("alice", ⟨"alice", 1, 0, 100, [], []⟩)]) :=
  ⟨by decide,
    C7_login_idempotent ⟨"alice", 3, 50, 200, [], []⟩
      [("alice", ⟨"alice", 1, 0, 100, [], []⟩)]
      ⟨"alice", 1, 0, 100, [], []⟩ (by decide)⟩

/-- Witness for C8: a user with one log and one reflection. -/
theorem C8_analytics_series_witness :
    dbFind [("bob", ⟨"bob", 1, 30, 100,
        [⟨"2026-01-01", "academic", 30, "n"⟩],
        [⟨"2026-01-01", "a", "s", "n"⟩]⟩)] "bob"
      = some ⟨"bob", 1, 30, 100, [⟨"2026-01-01", "academic", 30, "n"⟩],
          [⟨"2026-01-01", "a", "s", "n"⟩]⟩ ∧
    (∀ l ∈ (⟨"bob", 1, 30, 100, [⟨"2026-01-01", "academic", 30, "n"⟩],
        [⟨"2026-01-01", "a", "s", "n"⟩]⟩ : UserProfile).logs, 0 ≤ l.xp) ∧
    get_analytics "bob" [("bob", ⟨"bob", 1, 30, 100,
        [⟨"2026-01-01", "academic", 30, "n"⟩],
        [⟨"2026-01-01", "a", "s", "n"⟩]⟩)]
      = some ⟨⟨["2026-01-01"], [30]⟩, ⟨["2026-01-01"], [1]⟩⟩ ∧
    (List.Chain' (fun a b => a ≤ b)
        (⟨⟨["2026-01-01"], [30]⟩, ⟨["2026-01-01"], [1]⟩⟩
          : AnalyticsResponse).xp_chart.data ∧
     ((⟨"bob", 1, 30, 100, [⟨"2026-01-01", "academic", 30, "n"⟩],
         [⟨"2026-01-01", "a", "s", "n"⟩]⟩ : UserProfile).logs = [] →
       (⟨⟨["2026-01-01"], [30]⟩, ⟨["2026-01-01"], [1]⟩⟩
         : AnalyticsResponse).xp_chart.data = [] ∧
       (⟨⟨["2026-01-01"], [30]⟩, ⟨["2026-01-01"], [1]⟩⟩
         : AnalyticsResponse).xp_chart.labels = []) ∧
     ((⟨"bob", 1, 30, 100, [⟨"2026-01-01", "academic", 30, "n"⟩],
         [⟨"2026-01-01", "a", "s", "n"⟩]⟩ : UserProfile).reflections = [] →
       (⟨⟨["2026-01-01"], [30]⟩, ⟨["2026-01-01"], [1]⟩⟩
         : AnalyticsResponse).consistency_chart.data = [] ∧
       (⟨⟨["2026-01-01"], [30]⟩, ⟨["2026-01-01"], [1]⟩⟩
         : AnalyticsResponse).consistency_chart.labels = []) ∧
     ((⟨"bob", 1, 30, 100, [⟨"2026-01-01", "academic", 30, "n"⟩],
         [⟨"2026-01-01", "a", "s", "n"⟩]⟩ : UserProfile).logs ≠ [] →
       (⟨⟨["2026-01-01"], [30]⟩, ⟨["2026-01-01"], [1]⟩⟩
         : AnalyticsResponse).xp_chart.data.getLast?
        = some (((⟨"bob", 1, 30, 100, [⟨"2026-01-01", "academic", 30, "n"⟩],
            [⟨"2026-01-01", "a", "s", "n"⟩]⟩ : UserProfile).logs.map
              (fun l => l.xp)).sum)) ∧
     (⟨⟨["2026-01-01"], [30]⟩, ⟨["2026-01-01"], [1]⟩⟩
       : AnalyticsResponse).xp_chart.data
      = cumXP 0 (sortLogs (⟨"bob", 1, 30, 100,
          [⟨"2026-01-01", "academic", 30, "n"⟩],
          [⟨"2026-01-01", "a", "s", "n"⟩]⟩ : UserProfile).logs) ∧
     (⟨⟨["2026-01-01"], [30]⟩, ⟨["2026-01-01"], [1]⟩⟩
       : AnalyticsResponse).xp_chart.labels
      = (sortLogs (⟨"bob", 1, 30, 100,
          [⟨"2026-01-01", "academic", 30, "n"⟩],
          [⟨"2026-01-01", "a", "s", "n"⟩]⟩ : UserProfile).logs).map
            (fun l => l.date) ∧
     List.Pairwise (fun a b => a ≤ b)
        (⟨⟨["2026-01-01"], [30]⟩, ⟨["2026-01-01"], [1]⟩⟩
          : AnalyticsResponse).xp_chart.labels) :=
  ⟨by decide, by decide, by decide,
    C8_analytics_series "bob"
      [("bob", ⟨"bob", 1, 30, 100, [⟨"2026-01-01", "academic", 30, "n"⟩],
          [⟨"2026-01-01", "a", "s", "n"⟩]⟩)]
      ⟨"bob", 1, 30, 100, [⟨"2026-01-01", "academic", 30, "n"⟩],
        [⟨"2026-01-01", "a", "s", "n"⟩]⟩
      ⟨⟨["2026-01-01"], [30]⟩, ⟨["2026-01-01"], [1]⟩⟩
      (by decide) (by decide) (by decide)⟩

/-- Witness for C9 at an unknown username. -/
theorem C9_unknown_username_witness :
    dbFind [("alice", ⟨"alice", 1, 0, 100, [], []⟩)] "ghost" = none ∧
    (get_dashboard ⟨2026, 1, 1⟩ "ghost"
        [("alice", ⟨"alice", 1, 0, 100, [], []⟩)]
      = .error ⟨404, "User not found"⟩ ∧
     complete_task ⟨2026, 1, 1⟩ ⟨"ghost", "workout"⟩
        [("alice", ⟨"alice", 1, 0, 100, [], []⟩)]
      = .error ⟨404, "User not found"⟩ ∧
     submit_reflection ⟨"2026-01-01", "a", "s", "n"⟩ "ghost"
        [("alice", ⟨"alice", 1, 0, 100, [], []⟩)]
      = .error ⟨404, "User not found"⟩ ∧
     runDB (complete_task ⟨2026, 1, 1⟩ ⟨"ghost", "workout"⟩)
        [("alice", ⟨"alice", 1, 0, 100, [], []⟩)]
      = [("alice", ⟨"alice", 1, 0, 100, [], []⟩)] ∧
     runDB (submit_reflection ⟨"2026-01-01", "a", "s", "n"⟩ "ghost")
        [("alice", ⟨"alice", 1, 0, 100, [], []⟩)]
      = [("alice", ⟨"alice", 1, 0, 100, [], []⟩)] ∧
     get_analytics "ghost" [("alice", ⟨"alice", 1, 0, 100, [], []⟩)] = none) :=
  ⟨by decide,
    C9_unknown_username ⟨2026, 1, 1⟩ "ghost" "workout"
      ⟨"2026-01-01", "a", "s", "n"⟩
      [("alice", ⟨"alice", 1, 0, 100, [], []⟩)] (by decide)⟩

/-- Witness for C10: a stored reflection dated today makes the lock true. -/
theorem C10_reflection_date_and_lock_witness :
    dbFind [("alice", ⟨"alice", 1, 0, 100, [],
        [⟨"2026-01-01", "x", "y", "z"⟩]⟩)] "alice"
      = some ⟨"alice", 1, 0, 100, [], [⟨"2026-01-01", "x", "y", "z"⟩]⟩ ∧
    get_dashboard ⟨2026, 1, 1⟩ "alice"
        [("alice", ⟨"alice", 1, 0, 100, [], [⟨"2026-01-01", "x", "y", "z"⟩]⟩)]
      = .ok ⟨⟨"alice", 1, 0, 100, [], [⟨"2026-01-01", "x", "y", "z"⟩]⟩,
          calculate_progression ⟨2026, 1, 1⟩, ⟨false, false, false, true⟩⟩ ∧
    ((applyReflection ⟨"alice", 1, 0, 100, [], [⟨"2026-01-01", "x", "y", "z"⟩]⟩
        ⟨"2026-01-09", "a", "s", "n"⟩).logs
      = (⟨"alice", 1, 0, 100, [], [⟨"2026-01-01", "x", "y", "z"⟩]⟩
          : UserProfile).logs
        ++ [{ date := "2026-01-09", action_type := "reflection",
              xp := 20, note := "Daily Reflection Submitted" }] ∧
     (applyReflection ⟨"alice", 1, 0, 100, [], [⟨"2026-01-01", "x", "y", "z"⟩]⟩
        ⟨"2026-01-09", "a", "s", "n"⟩).reflections
      = (⟨"alice", 1, 0, 100, [], [⟨"2026-01-01", "x", "y", "z"⟩]⟩
          : UserProfile).reflections ++ [⟨"2026-01-09", "a", "s", "n"⟩] ∧
     ((⟨⟨"alice", 1, 0, 100, [], [⟨"2026-01-01", "x", "y", "z"⟩]⟩,
         calculate_progression ⟨2026, 1, 1⟩, ⟨false, false, false, true⟩⟩
         : DashboardResponse).locks.reflection = true ↔
       ∃ x ∈ (⟨"alice", 1, 0, 100, [], [⟨"2026-01-01", "x", "y", "z"⟩]⟩
           : UserProfile).reflections,
         x.date = (calculate_progression ⟨2026, 1, 1⟩).date_str)) :=
  ⟨by decide, by decide,
    C10_reflection_date_and_lock ⟨2026, 1, 1⟩ ⟨"2026-01-09", "a", "s", "n"⟩
      "alice"
      [("alice", ⟨"alice", 1, 0, 100, [], [⟨"2026-01-01", "x", "y", "z"⟩]⟩)]
      ⟨"alice", 1, 0, 100, [], [⟨"2026-01-01", "x", "y", "z"⟩]⟩
      ⟨⟨"alice", 1, 0, 100, [], [⟨"2026-01-01", "x", "y", "z"⟩]⟩,
        calculate_progression ⟨2026, 1, 1⟩, ⟨false, false, false, true⟩⟩
      (by decide) (by decide)⟩

end HabitTracker
